import Mathlib

/-!
Verification of the `spark-rapids-tools` dataset-validation script
(`data_validation/.../validation_scripts/dataset_validation.py`) and of the
Databricks-AWS CLI wrapper (`user_tools/.../wrappers/databricks_aws_wrapper.py`).

The Python code is shallowly embedded: the Spark session is modelled as an
explicit state (file store, hive catalog, temporary views, a log of SQL texts
handed to `spark.sql`, a log of per-path load statements, and printed output);
Python exceptions are modelled with `Except`; Python `None` is modelled with
`Option`.  The SQL statements generated by the script have a fixed shape, so
the engine's evaluation of exactly those shapes is given denotationally:
predicate strings receive their meaning from an environment `PredEnv`, column
projection and `EXCEPT` (set difference with duplicates collapsed) are
evaluated over in-memory tables.
-/

namespace SparkRapidsTools

/-- A cell value of a dataset.  The `date` constructor records the date-typed
values that the validation script's include-column check is meant to reject. -/
inductive Value where
  | int : Int → Value
  | str : String → Value
  | date : String → Value
deriving DecidableEq, Repr

/-- A row is an association of column names to values. -/
abbrev Row := List (String × Value)

/-- A table is a list of rows. -/
abbrev Table := List Row

/-- A key tuple produced by projecting named columns out of a row; a missing
column projects to `none`. -/
abbrev KeyTuple := List (Option Value)

/-- The materialized content of a DataFrame returned by the generated
key-projection queries: a relation of key tuples. -/
abbrev DataFrame := List KeyTuple

/-- Python-style dictionary lookup on an association list. -/
def lookupKey {α : Type} (k : String) : List (String × α) → Option α
  | [] => none
  | (k1, v) :: rest => if k1 = k then some v else lookupKey k rest

/-- Remove a key from an association list (Python `dict.pop` / view replace). -/
def removeKey {α : Type} (k : String) : List (String × α) → List (String × α)
  | [] => []
  | (k1, v) :: rest => if k1 = k then removeKey k rest else (k1, v) :: removeKey k rest

/-- `createOrReplaceTempView`: bind a name, replacing any previous binding. -/
def upsertKey {α : Type} (k : String) (v : α) (l : List (String × α)) : List (String × α) :=
  (k, v) :: removeKey k l

/-- Meaning of the predicate strings (partition predicates and row filters)
that the script splices into its SQL: the backing engine's truth value of a
predicate text on a row. -/
structure PredEnv where
  sat : String → Row → Bool

/-- The Python exceptions this code can raise. -/
inductive PyError where
  | attributeError : String → PyError
  | nameError : String → PyError
  | sqlParse : String → PyError
deriving DecidableEq, Repr

/-- Decidable equality of `Except` results, so that concrete runs of the
embedded functions can be checked by evaluation. -/
instance instDecEqExcept {ε α : Type} [DecidableEq ε] [DecidableEq α] :
    DecidableEq (Except ε α) := fun x y =>
  match x, y with
  | Except.error u, Except.error v =>
    if h : u = v then Decidable.isTrue (congrArg Except.error h)
    else Decidable.isFalse (fun hc => h (Except.error.inj hc))
  | Except.error _, Except.ok _ => Decidable.isFalse (fun hc => Except.noConfusion hc)
  | Except.ok _, Except.error _ => Decidable.isFalse (fun hc => Except.noConfusion hc)
  | Except.ok u, Except.ok v =>
    if h : u = v then Decidable.isTrue (congrArg Except.ok h)
    else Decidable.isFalse (fun hc => h (Except.ok.inj hc))

/-- The observable state of the Spark session used by the script:
`store` maps file paths to their data (`spark.read.format(...).load(path)`),
`catalog` holds hive tables (`spark.catalog.tableExists` and hive queries),
`views` holds temporary views, `queries` logs every SQL text handed to
`spark.sql` in order, `loads` logs, per call of `load_table`, the loaded path
together with the SELECT issued for it, and `printed` logs printed lines. -/
structure SparkState where
  store : List (String × Table)
  catalog : List (String × Table)
  views : List (String × Table)
  queries : List String
  loads : List (String × String)
  printed : List String

/-- `spark._jsparkSession.catalog().tableExists(name)`. -/
def tableExists (st : SparkState) (t : String) : Bool :=
  (lookupKey t st.catalog).isSome

/-- The CLI arguments of the validation script (`argparse`): flags that may be
omitted are `Option String` (Python `None`), mirroring
`--format --t1 --t2 --t1p --t2p --pk --e --i --f --o --of`. -/
structure Args where
  format : String
  t1 : String
  t2 : String
  t1p : Option String
  t2p : Option String
  pk : String
  e : String
  i : Option String
  f : Option String
  o : String
  of : String

/-- Python `x != 'None'` where `x` is a string or `None`:
`None != 'None'` is `True`, so only the sentinel string itself fails. -/
def pyNeNone (x : Option String) : Bool :=
  match x with
  | none => true
  | some s => s ≠ "None"

/-- Python f-string interpolation of a string-or-None value
(`f"{None}"` is `"None"`). -/
def pyStr (x : Option String) : String :=
  match x with
  | none => "None"
  | some s => s

/-- The projected column list of `load_table`:
`cols = '*' if i is None else i`. -/
def loadTableCols (i : Option String) : String :=
  match i with
  | none => "*"
  | some s => s

/-- The WHERE clause built by `load_table` from the partition predicate and
the row filter (source lines 175-182). -/
def loadTableWhere (t1p fpred : Option String) : String :=
  if pyNeNone t1p && pyNeNone fpred then " where " ++ pyStr t1p ++ " and " ++ pyStr fpred
  else if pyNeNone t1p then " where " ++ pyStr t1p
  else if pyNeNone fpred then " where " ++ pyStr fpred
  else ""

/-- The full SELECT text `load_table` hands to `spark.sql`. -/
def loadTableSql (pk : String) (i : Option String) (t1p fpred : Option String) (view_name : String) : String :=
  "select " ++ pk ++ "," ++ loadTableCols i ++ " from " ++ view_name ++ loadTableWhere t1p fpred

/-- Split a character list at commas. -/
def splitCommaAux (cs : List Char) (acc : List Char) : List (List Char) :=
  match cs with
  | [] => [acc.reverse]
  | c :: rest =>
    if c = ',' then acc.reverse :: splitCommaAux rest []
    else splitCommaAux rest (c :: acc)

/-- Strip spaces from both ends of a character list. -/
def trimChars (cs : List Char) : List Char :=
  ((cs.dropWhile (fun c => c = ' ')).reverse.dropWhile (fun c => c = ' ')).reverse

/-- Comma-separated column list as the engine resolves it in a projection
(surrounding blanks around each column name are insignificant in SQL). -/
def parseCols (pk : String) : List String :=
  (splitCommaAux pk.data []).map (fun cs => String.mk (trimChars cs))

/-- Projection of named columns out of a table. -/
def project (cols : List String) (t : Table) : List KeyTuple :=
  t.map (fun r => cols.map (fun c => lookupKey c r))

/-- Relational EXCEPT: rows of the left operand that do not occur in the
right operand, duplicates collapsed. -/
def exceptDistinct {α : Type} [DecidableEq α] (xs ys : List α) : List α :=
  (xs.filter (fun x => decide (¬ x ∈ ys))).dedup

/-- `load_table(spark, format, t1, t1p, pk, e, i, f, view_name)`
(source lines 166-191).  For a file-backed format it registers the raw
loaded file as the temporary view, then hands the generated SELECT (key
columns plus projection plus WHERE clause) to `spark.sql`; the resulting
DataFrame is only printed.  The Python function has no return statement on
any path, so it returns `None` (`Except.ok none`).  `spark.sql` parses the
statement eagerly: when the view name is empty the generated text has an
empty FROM target and fails to parse.  `spark.sql` also analyzes column
references eagerly; that name resolution is not modelled here (the engine is
taken to accept the generated projection), so concrete claims about this
path are only evaluated at inputs whose projected columns resolve — e.g. an
include list that is Python `None`, giving the projection `*`. -/
def load_table (env : PredEnv) (format t1 : String) (t1p : Option String) (pk e : String)
    (i : Option String) (fpred : Option String) (view_name : String) (st : SparkState) :
    SparkState × Except PyError (Option DataFrame) :=
  if format ∈ ["parquet", "orc", "csv"] then
    let path := t1
    let data := (lookupKey path st.store).getD []
    let sql := loadTableSql pk i t1p fpred view_name
    let st1 := { st with views := upsertKey view_name data st.views,
                         queries := st.queries ++ [sql],
                         loads := st.loads ++ [(path, sql)] }
    if view_name = "" then
      (st1, Except.error (PyError.sqlParse sql))
    else
      (st1, Except.ok none)
  else if format = "hive" then
    ({ st with printed := st.printed ++ ["----todo---hive-load_table-"] }, Except.ok none)
  else
    (st, Except.ok none)

/-- `valid_pk_only_in_one_table(spark, format, t1, t2, t1p, t2p, pk, e, i, f, o, of)`
(source lines 111-136).  File-backed branch: loads both tables into the
views `table1`/`table2` (the views hold the raw file data) and evaluates
`select {pk} from table1 except select {pk} from table2`.  Hive branch:
builds `select {pk} from {t1} except select {pk} from {t2}` and, when any of
`t1p`, `t2p`, `f` is not Python `None`, appends `' where '` followed by the
AND-join of those that are neither `None` nor the sentinel string; in SQL
this WHERE clause binds to the second SELECT of the EXCEPT, and when every
conjunct is filtered out the text ends in a bare `' where '` and fails to
parse.  Any other format falls through and returns `None`. -/
def valid_pk_only_in_one_table (env : PredEnv) (format t1 t2 : String)
    (t1p t2p : Option String) (pk e : String) (i : Option String) (fpred : Option String)
    (o of : String) (st : SparkState) : SparkState × Except PyError (Option DataFrame) :=
  if format ∈ ["parquet", "orc", "csv"] then
    match load_table env format t1 t1p pk e i fpred "table1" st with
    | (st1, Except.error err) => (st1, Except.error err)
    | (st1, Except.ok _) =>
      match load_table env format t2 t2p pk e i fpred "table2" st1 with
      | (st2, Except.error err) => (st2, Except.error err)
      | (st2, Except.ok _) =>
        let sql := "select " ++ pk ++ " from table1 except select " ++ pk ++ " from table2"
        let st3 := { st2 with queries := st2.queries ++ [sql] }
        let keyCols := parseCols pk
        let res := exceptDistinct (project keyCols ((lookupKey "table1" st3.views).getD []))
                                  (project keyCols ((lookupKey "table2" st3.views).getD []))
        (st3, Except.ok (some res))
  else if format = "hive" then
    let sqlBase := "select " ++ pk ++ " from " ++ t1 ++ " except select " ++ pk ++ " from " ++ t2
    let conds := ([t1p, t2p, fpred].filterMap id).filter (fun x => x ≠ "None")
    let where_clause :=
      if [t1p, t2p, fpred].any Option.isSome then " where " ++ String.intercalate " and " conds
      else ""
    let sql := sqlBase ++ where_clause
    let st1 := { st with printed := st.printed ++ ["-----yuadebug---", sql],
                         queries := st.queries ++ [sql] }
    if [t1p, t2p, fpred].any Option.isSome ∧ conds = [] then
      (st1, Except.error (PyError.sqlParse sql))
    else
      let keyCols := parseCols pk
      let t1rows := (lookupKey t1 st1.catalog).getD []
      let t2rows := ((lookupKey t2 st1.catalog).getD []).filter
        (fun r => conds.all (fun c => env.sat c r))
      (st1, Except.ok (some (exceptDistinct (project keyCols t1rows) (project keyCols t2rows))))
  else
    (st, Except.ok none)

/-- `valid_table(spark, args)` (source lines 59-69): checks both tables in
the catalog, printing which one is missing. -/
def valid_table (args : Args) (st : SparkState) : SparkState × Bool :=
  if tableExists st args.t1 then
    if tableExists st args.t2 then (st, true)
    else ({ st with printed := st.printed ++ ["|--Table " ++ args.t2 ++ " does not exist!--|"] }, false)
  else
    ({ st with printed := st.printed ++ ["|--Table " ++ args.t1 ++ " does not exist!--|"] }, false)

/-- `valid_metadata_included_column(spark, args)` (source lines 71-88).
When the include list is neither `'None'` nor `'all'`, the code assigns
`table_DF = load_table(...)`; since `load_table` returns `None`, the
subsequent `table_DF.select(...)` raises `AttributeError` (with `args.i`
being Python `None`, `args.i.split(",")` raises first); were a DataFrame
ever returned, the first iteration of the type-check loop would raise
`NameError` because `fnmatch` is never imported. -/
def valid_metadata_included_column (env : PredEnv) (args : Args) (st : SparkState) :
    SparkState × Except PyError Bool :=
  if args.i = some "None" ∨ args.i = some "all" then (st, Except.ok true)
  else
    match load_table env args.format args.t1 args.t1p args.pk args.e args.i args.f "" st with
    | (st1, Except.error err) => (st1, Except.error err)
    | (st1, Except.ok table_DF) =>
      match args.i with
      | none => (st1, Except.error (PyError.attributeError "NoneType object has no attribute split"))
      | some _ =>
        match table_DF with
        | none => (st1, Except.error (PyError.attributeError "NoneType object has no attribute select"))
        | some _ => (st1, Except.error (PyError.nameError "name fnmatch is not defined"))

/-- `valid_input(spark, args)` (source lines 44-57): table check, then
include-column check, then a printed warning — but no failure — when the
format is not `'hive'`. -/
def valid_input (env : PredEnv) (args : Args) (st : SparkState) :
    SparkState × Except PyError Bool :=
  match valid_table args st with
  | (st1, false) => (st1, Except.ok false)
  | (st1, true) =>
    match valid_metadata_included_column env args st1 with
    | (st2, Except.error err) => (st2, Except.error err)
    | (st2, Except.ok false) => (st2, Except.ok false)
    | (st2, Except.ok true) =>
      if args.format ≠ "hive" then
        ({ st2 with printed := st2.printed ++ ["|--Currently only support hive format--|"] }, Except.ok true)
      else (st2, Except.ok true)

/-- `validation(spark, args)` (source lines 21-42): on failed input
validation prints a message and returns; otherwise runs the two directional
comparisons — note that the second call swaps the table arguments
`(args.t2, args.t1)` but passes the partition arguments unswapped
`(args.t1p, args.t2p)` — printing each header and calling `.show()` on each
result (which raises `AttributeError` when the result is `None`). -/
def validation (env : PredEnv) (args : Args) (st : SparkState) :
    SparkState × Except PyError Unit :=
  match valid_input env args st with
  | (st1, Except.error err) => (st1, Except.error err)
  | (st1, Except.ok false) =>
    ({ st1 with printed := st1.printed ++ ["|--Please Check The Inputs --|"] }, Except.ok ())
  | (st1, Except.ok true) =>
    match valid_pk_only_in_one_table env args.format args.t1 args.t2 args.t1p args.t2p
        args.pk args.e args.i args.f args.o args.of st1 with
    | (st2, Except.error err) => (st2, Except.error err)
    | (st2, Except.ok result) =>
      let st3 := { st2 with printed := st2.printed ++ ["|--PK(s) only in " ++ args.t1 ++ " :--|"] }
      match result with
      | none => (st3, Except.error (PyError.attributeError "NoneType object has no attribute show"))
      | some _ =>
        match valid_pk_only_in_one_table env args.format args.t2 args.t1 args.t1p args.t2p
            args.pk args.e args.i args.f args.o args.of st3 with
        | (st4, Except.error err) => (st4, Except.error err)
        | (st4, Except.ok result2) =>
          let st5 := { st4 with printed := st4.printed ++ ["|--PK(s) only in " ++ args.t2 ++ " :--|"] }
          match result2 with
          | none => (st5, Except.error (PyError.attributeError "NoneType object has no attribute show"))
          | some _ =>
            ({ st5 with printed := st5.printed ++ ["------------run validation success-----"] }, Except.ok ())

/-- The row restriction the spec's words describe for the comparison: each
side is independently restricted to the rows satisfying its partition
predicate and the row filter (a predicate counts as present when it is
neither absent nor the sentinel string `"None"`). -/
def specApplyFilters (env : PredEnv) (p flt : Option String) (rows : Table) : Table :=
  rows.filter (fun r =>
    (match p with
     | some s => if s = "None" then true else env.sat s r
     | none => true)
    && (match flt with
        | some s => if s = "None" then true else env.sat s r
        | none => true))

/-- The key-set difference the spec's words describe: project the key columns
from each side after restricting it by its own predicates, then take the
EXCEPT set difference. -/
def spec_keys_only_in_left (env : PredEnv) (keyCols : List String) (rowsA rowsB : Table)
    (pA pB flt : Option String) : List KeyTuple :=
  exceptDistinct (project keyCols (specApplyFilters env pA flt rowsA))
                 (project keyCols (specApplyFilters env pB flt rowsB))

/-! ### The Databricks-AWS CLI wrapper (`CliDBAWSLocalMode.qualification`) -/

/-- An untyped Python value held in the `rapids_options` keyword dictionary
or passed as an explicit argument of the wrapper. -/
inductive PyVal where
  | vStr : String → PyVal
  | vInt : Int → PyVal
  | vBool : Bool → PyVal
deriving DecidableEq, Repr

/-- Modelled from the spec: `Utils.get_value_or_pop` lives in
`spark_rapids_pytools.common.utilities`, which is not under `src/`; per its
name and the wrapper's use of it, it returns the explicitly provided value
when that value is not Python `None`, and otherwise pops (removes and
returns) the shorthand key from the options dictionary, falling back to the
default value when the key is absent.  The result is the chosen value
together with the (possibly) updated dictionary, making the Python in-place
mutation of `rapids_options` explicit. -/
def get_value_or_pop (value : Option PyVal) (opts : List (String × PyVal))
    (key : String) (dflt : Option PyVal) : Option PyVal × List (String × PyVal) :=
  match value with
  | some v => (some v, opts)
  | none =>
    match lookupKey key opts with
    | some w => (some w, removeKey key opts)
    | none => (dflt, opts)

/-- The `platformOpts` entry of the wrapper options. -/
structure PlatformOpts where
  profile : Option PyVal
  awsProfile : Option PyVal
  credentialFile : Option PyVal
  deployMode : String
deriving DecidableEq, Repr

/-- The `migrationClustersProps` entry of the wrapper options. -/
structure MigrationClustersProps where
  cpuCluster : Option PyVal
  gpuCluster : Option PyVal
deriving DecidableEq, Repr

/-- The `platformArgs` entry of `jobSubmissionProps`. -/
structure PlatformArgs where
  jvmMaxHeapSize : Option PyVal
deriving DecidableEq, Repr

/-- The `jobSubmissionProps` entry of the wrapper options. -/
structure JobSubmissionProps where
  remoteFolder : Option PyVal
  platformArgs : PlatformArgs
deriving DecidableEq, Repr

/-- The `wrapper_qual_options` dictionary assembled by
`CliDBAWSLocalMode.qualification` (source lines 120-145). -/
structure QualWrapperOptions where
  platformOpts : PlatformOpts
  migrationClustersProps : MigrationClustersProps
  jobSubmissionProps : JobSubmissionProps
  eventlogs : Option PyVal
  filterApps : Option PyVal
  toolsJar : Option PyVal
  gpuClusterRecommendation : Option PyVal
  cpuDiscount : Option PyVal
  gpuDiscount : Option PyVal
  globalDiscount : Option PyVal
deriving DecidableEq, Repr

/-- The arguments of the `QualificationAsLocal(...)` construction the wrapper
launches (source lines 146-150). -/
structure QualificationLaunch where
  platformType : String
  cluster : Option PyVal
  outputFolder : Option PyVal
  wrapperOptions : QualWrapperOptions
  rapidsOptions : List (String × PyVal)
deriving DecidableEq, Repr

/-- `CliDBAWSLocalMode.qualification` (source lines 30-150): resolves each
explicit argument against its shorthand key in `rapids_options` via
`get_value_or_pop` (in source order: `v`, `p`, `a`, `r`, `j` with default 24,
`e`, `f`, `t`, `l`), assembles `wrapper_qual_options`, and launches
`QualificationAsLocal` with the remaining `rapids_options`. -/
def qualification (cpu_cluster eventlogs profile aws_profile local_folder remote_folder
    gpu_cluster tools_jar credentials_file filter_apps gpu_cluster_recommendation
    jvm_heap_size verbose cpu_discount gpu_discount global_discount : Option PyVal)
    (rapids_options : List (String × PyVal)) : QualificationLaunch :=
  let s1 := get_value_or_pop verbose rapids_options "v" (some (PyVal.vBool false))
  let s2 := get_value_or_pop profile s1.2 "p" none
  let s3 := get_value_or_pop aws_profile s2.2 "a" none
  let s4 := get_value_or_pop remote_folder s3.2 "r" none
  let s5 := get_value_or_pop jvm_heap_size s4.2 "j" (some (PyVal.vInt 24))
  let s6 := get_value_or_pop eventlogs s5.2 "e" none
  let s7 := get_value_or_pop filter_apps s6.2 "f" none
  let s8 := get_value_or_pop tools_jar s7.2 "t" none
  let s9 := get_value_or_pop local_folder s8.2 "l" none
  { platformType := "DATABRICKS_AWS"
    cluster := none
    outputFolder := s9.1
    wrapperOptions :=
      { platformOpts :=
          { profile := s2.1
            awsProfile := s3.1
            credentialFile := credentials_file
            deployMode := "LOCAL" }
        migrationClustersProps :=
          { cpuCluster := cpu_cluster
            gpuCluster := gpu_cluster }
        jobSubmissionProps :=
          { remoteFolder := s4.1
            platformArgs := { jvmMaxHeapSize := s5.1 } }
        eventlogs := s6.1
        filterApps := s7.1
        toolsJar := s8.1
        gpuClusterRecommendation := gpu_cluster_recommendation
        cpuDiscount := cpu_discount
        gpuDiscount := gpu_discount
        globalDiscount := global_discount }
    rapidsOptions := s9.2 }

/-! ### Association-list lemmas -/

theorem lookupKey_removeKey_ne {α : Type} (k k1 : String) (h : k1 ≠ k)
    (l : List (String × α)) : lookupKey k1 (removeKey k l) = lookupKey k1 l := by
  induction l with
  | nil => rfl
  | cons hd tl ih =>
    obtain ⟨a, b⟩ := hd
    by_cases ha : a = k
    · subst ha
      have hk : ¬ a = k1 := fun hc => h (hc ▸ rfl)
      simp [removeKey, lookupKey, hk, ih]
    · by_cases hb : a = k1 <;> simp [removeKey, lookupKey, ha, hb, h, ih]

theorem lookupKey_removeKey_self {α : Type} (k : String) (l : List (String × α)) :
    lookupKey k (removeKey k l) = none := by
  induction l with
  | nil => rfl
  | cons hd tl ih =>
    obtain ⟨a, b⟩ := hd
    by_cases ha : a = k
    · simpa [removeKey, ha] using ih
    · simp [removeKey, lookupKey, ha, ih]

/-- Popping one shorthand key leaves every other key of the options
dictionary untouched, whether or not the pop happened. -/
theorem gvop_snd_lookup_ne (k1 k : String) (h : k1 ≠ k) (v : Option PyVal)
    (d : List (String × PyVal)) (dflt : Option PyVal) :
    lookupKey k1 (get_value_or_pop v d k dflt).2 = lookupKey k1 d := by
  cases v with
  | some w => rfl
  | none =>
    simp only [get_value_or_pop]
    cases hl : lookupKey k d with
    | some w => simp [lookupKey_removeKey_ne k k1 h]
    | none => rfl

/-- When no explicit value is provided, the shorthand key is gone from the
dictionary returned by `get_value_or_pop`. -/
theorem gvop_snd_lookup_self (d : List (String × PyVal)) (k : String) (dflt : Option PyVal) :
    lookupKey k (get_value_or_pop none d k dflt).2 = none := by
  simp only [get_value_or_pop]
  cases hl : lookupKey k d with
  | some w => simp [lookupKey_removeKey_self]
  | none => simpa using hl

/-- The value chosen by `get_value_or_pop` when no explicit value is
provided: the dictionary entry when present, the default otherwise. -/
theorem gvop_fst_none (d : List (String × PyVal)) (k : String) (dflt : Option PyVal) :
    (get_value_or_pop none d k dflt).1
      = match lookupKey k d with
        | some w => some w
        | none => dflt := by
  simp only [get_value_or_pop]
  cases lookupKey k d <;> rfl

/-! ### Concrete scenarios used by the per-claim theorems -/

/-- Predicate meaning for the C1 scenario: `amount > 100`. -/
def env1 : PredEnv :=
  ⟨fun s r =>
    if s = "amount > 100" then
      match lookupKey "amount" r with
      | some (Value.int n) => decide (100 < n)
      | _ => false
    else false⟩

/-- C1 left dataset: key 1 passes the filter, key 2 fails it. -/
def dataA1 : Table :=
  [[("id", Value.int 1), ("amount", Value.int 150)],
   [("id", Value.int 2), ("amount", Value.int 50)]]

/-- C1 right dataset: only key 1, which passes the filter. -/
def dataB1 : Table := [[("id", Value.int 1), ("amount", Value.int 150)]]

/-- C1 session state: the two datasets stored at paths `p1` and `p2`. -/
def st1 : SparkState := ⟨[("p1", dataA1), ("p2", dataB1)], [], [], [], [], []⟩

/-- Predicate meaning for the C2 scenario (irrelevant to the logged SQL). -/
def env2 : PredEnv := ⟨fun _ _ => true⟩

/-- C2 dataset, identical on both paths; `part` is a column of both files,
so the spliced predicate `part=1` resolves. -/
def data2 : Table := [[("id", Value.int 1), ("part", Value.int 1)]]

/-- C2 session state: the dataset stored at the paths `p1` and `p2`. -/
def st2 : SparkState :=
  ⟨[("p1", data2), ("p2", data2)], [], [], [], [], []⟩

/-- Predicate meaning for the C3/C4 scenarios (never consulted). -/
def env3 : PredEnv := ⟨fun _ _ => false⟩

/-- C3 dataset: the column `d` is date-typed. -/
def dataA3 : Table := [[("id", Value.int 1), ("d", Value.date "2023-01-01")]]

/-- C3 CLI arguments: the include list names the date-typed column `d`. -/
def args3 : Args :=
  ⟨"hive", "ta", "tb", some "None", some "None", "id", "", some "d", some "None", "", ""⟩

/-- C3 session state: both tables exist in the catalog. -/
def st3 : SparkState := ⟨[], [("ta", dataA3), ("tb", dataA3)], [], [], [], []⟩

/-- Predicate meaning for the C4 scenario (never consulted). -/
def env4 : PredEnv := ⟨fun _ _ => false⟩

/-- C4 CLI arguments: format `json`, outside the supported set. -/
def args4 : Args :=
  ⟨"json", "ta", "tb", some "None", some "None", "id", "", some "None", some "None", "", ""⟩

/-- C4 session state: both tables exist, so only the format could fail. -/
def st4 : SparkState := ⟨[], [("ta", []), ("tb", [])], [], [], [], []⟩

/-- C5 witness scenario. -/
def env5 : PredEnv := ⟨fun _ _ => false⟩

/-- C5 witness state. -/
def st5 : SparkState := ⟨[], [], [], [], [], []⟩

/-- C6 witness arguments: `--t1` names a table absent from the catalog. -/
def args6 : Args :=
  ⟨"hive", "missing", "tb", some "None", some "None", "id", "", some "None", some "None", "", ""⟩

/-- C6 witness environment. -/
def env6 : PredEnv := ⟨fun _ _ => false⟩

/-- C6 witness state: only `tb` exists. -/
def st6 : SparkState := ⟨[], [("tb", [])], [], [], [], []⟩

/-- C7 witness environment. -/
def env7 : PredEnv := ⟨fun _ _ => false⟩

/-- C7 witness state. -/
def st7 : SparkState := ⟨[], [], [], [], [], []⟩

/-- Predicate meaning for the C8 scenario: `a > 5`. -/
def env8 : PredEnv :=
  ⟨fun s r =>
    if s = "a > 5" then
      match lookupKey "a" r with
      | some (Value.int n) => decide (5 < n)
      | _ => false
    else false⟩

/-- C8 session state: the hive table `t`, whose single row fails the filter
`a > 5`. -/
def st8 : SparkState := ⟨[], [("t", [[("a", Value.int 1)]])], [], [], [], []⟩

/-! ### Claim theorems -/

/-- C1: the claim states that the key-set difference returned by
`valid_pk_only_in_one_table` for file-backed formats equals the unfiltered
comparison restricted to the rows satisfying the row filter on each side
independently.  The code violates it: `load_table` registers the raw file as
the temporary view and discards the filtered SELECT it builds, so the filter
never reaches the EXCEPT query.  At the failing input (row filter
`amount > 100`, key 2 present only on the left but failing the filter) the
code returns the key set `{(2)}` while the spec-described restricted
comparison is empty. -/
theorem c1_filters_do_not_reach_except :
    (valid_pk_only_in_one_table env1 "parquet" "p1" "p2" (some "None") (some "None") "id" ""
        none (some "amount > 100") "" "" st1).2
      = Except.ok (some [[some (Value.int 2)]])
    ∧ spec_keys_only_in_left env1 ["id"] dataA1 dataB1 (some "None") (some "None")
        (some "amount > 100") = []
    ∧ ([[some (Value.int 2)]] : DataFrame) ≠ [] := by
  refine ⟨by decide, by decide, by decide⟩

/-- C2: the claim states that a partition predicate supplied for one dataset
is applied only to that dataset's load in both directions of the comparison.
The code violates it in the swapped direction: `validation` makes the two
directional calls (source lines 28 and 32) as
`valid_pk_only_in_one_table(.., t1, t2, t1p, t2p, ..)` and
`valid_pk_only_in_one_table(.., t2, t1, t1p, t2p, ..)` — tables swapped,
partition predicates not.  Below, with the predicate `part=1` supplied for
dataset `p1` only (`t2p` at the sentinel) and the include list Python `None`
(so every generated statement is analyzable: the projection is `*` and
`part` is a column of both files), the first-direction call applies `part=1`
to the load of `p1` as it should, but the swapped call — its arguments
exactly as line 32 passes them — applies `part=1` to the load of `p2` while
loading `p1` unfiltered. -/
theorem c2_swapped_call_misapplies_partition :
    ((valid_pk_only_in_one_table env2 "parquet" "p1" "p2" (some "part=1") (some "None")
        "id" "" none (some "None") "" "" st2).1.loads
      = [("p1", "select id,* from table1 where part=1"),
         ("p2", "select id,* from table2")])
    ∧ ((valid_pk_only_in_one_table env2 "parquet" "p2" "p1" (some "part=1") (some "None")
        "id" "" none (some "None") "" "" st2).1.loads
      = [("p2", "select id,* from table1 where part=1"),
         ("p1", "select id,* from table2")]) := by
  refine ⟨by decide, by decide⟩

/-- C3: the claim states that an include list naming a date-typed column
makes `valid_input` (via `valid_metadata_included_column`) return `False`
after a diagnostic, without raising.  The code violates it: with the include
list `d` (a date column of table `ta`), `load_table` returns `None` (it has
no return statement), so `table_DF.select(...)` raises `AttributeError` —
the diagnostic and the `False` return are never reached, the exception
propagates out of `validation`, and no comparison query is issued. -/
theorem c3_included_date_column_raises :
    (valid_input env3 args3 st3).2
      = Except.error (PyError.attributeError "NoneType object has no attribute select")
    ∧ (validation env3 args3 st3).2
      = Except.error (PyError.attributeError "NoneType object has no attribute select")
    ∧ (validation env3 args3 st3).1.queries = [] := by
  refine ⟨by decide, by decide, by decide⟩

/-- C8: the claim states that comparing a dataset against itself with
identical partition predicates and row filters yields empty results in both
directions for any non-empty key.  The code violates it in the hive branch:
the generated WHERE clause binds to the second SELECT of the EXCEPT only, so
comparing hive table `t` against itself with row filter `a > 5` (which its
single row fails) returns the non-empty key set `{(1)}` — and the
direction-swapped call is the identical invocation, since both table
arguments are `t`. -/
theorem c8_hive_self_compare_not_empty :
    (valid_pk_only_in_one_table env8 "hive" "t" "t" none none "a" "" none (some "a > 5")
        "" "" st8).2
      = Except.ok (some [[some (Value.int 1)]])
    ∧ ([[some (Value.int 1)]] : DataFrame) ≠ [] := by
  refine ⟨by decide, by decide⟩

/-- C9: in the hive branch of `valid_pk_only_in_one_table`, when `t1p`,
`t2p` and `f` are all the literal string `'None'`, the guard
`any(cond is not None ...)` passes (the strings are not Python `None`), every
conjunct is then filtered out, and the SQL handed to `spark.sql` ends in a
bare `' where '` instead of omitting the WHERE clause. -/
theorem c9_hive_bare_where (env : PredEnv) (pk t1 t2 e o ofv : String)
    (i : Option String) (st : SparkState) :
    (valid_pk_only_in_one_table env "hive" t1 t2 (some "None") (some "None") pk e i
        (some "None") o ofv st).1.queries
      = st.queries
        ++ ["select " ++ pk ++ " from " ++ t1 ++ " except select " ++ pk ++ " from " ++ t2
            ++ " where "]
    ∧ (([some "None", some "None", some "None"] : List (Option String)).any Option.isSome
        = true) := by
  constructor
  · simp [valid_pk_only_in_one_table, String.intercalate]
  · decide

/-- C4 counterexample: `json` is not a supported storage/query format, both
tables exist and the include list is the sentinel, yet `valid_input` returns
`True` — refuting the claim that `valid_input` returns failure whenever the
format is unsupported. -/
theorem c4_unsupported_format_passes :
    (("json" : String) ∉ ["parquet", "orc", "csv", "hive"])
    ∧ (valid_input env4 args4 st4).2 = Except.ok true
    ∧ (valid_input env4 args4 st4).2 ≠ Except.ok false := by
  refine ⟨by decide, by decide, by decide⟩

/-- C4 (amended): `valid_input` never fails on the format check: whenever
both tables exist and the include list is `'None'` or `'all'`, it returns
`True` for every format value, merely printing the warning
`|--Currently only support hive format--|` when the format is not `hive`;
a `False` result arises only from the missing-table or include-column
checks. -/
theorem c4_amended_format_warning_only (env : PredEnv) (args : Args) (st : SparkState)
    (h1 : tableExists st args.t1 = true) (h2 : tableExists st args.t2 = true)
    (hi : args.i = some "None" ∨ args.i = some "all") :
    (valid_input env args st).2 = Except.ok true
    ∧ (args.format ≠ "hive" →
        "|--Currently only support hive format--|" ∈ (valid_input env args st).1.printed) := by
  have hmeta : valid_metadata_included_column env args st = (st, Except.ok true) := by
    rcases hi with hi | hi <;> simp [valid_metadata_included_column, hi]
  by_cases hf : args.format = "hive" <;>
    simp [valid_input, valid_table, h1, h2, hmeta, hf]

/-- C4 witness: the amended statement applied to the concrete `json`
scenario. -/
theorem c4_amended_format_warning_only_witness :
    (tableExists st4 args4.t1 = true ∧ tableExists st4 args4.t2 = true
      ∧ (args4.i = some "None" ∨ args4.i = some "all"))
    ∧ ((valid_input env4 args4 st4).2 = Except.ok true
      ∧ (args4.format ≠ "hive" →
          "|--Currently only support hive format--|" ∈ (valid_input env4 args4 st4).1.printed)) :=
  ⟨⟨by decide, by decide, Or.inl rfl⟩,
   c4_amended_format_warning_only env4 args4 st4 (by decide) (by decide) (Or.inl rfl)⟩

/-- C5: for every format value outside `parquet`, `orc`, `csv`, `hive`,
`valid_pk_only_in_one_table` falls through both branches and returns Python
`None` with the session state untouched — no exception, no issued query, a
silent no-op. -/
theorem c5_unknown_format_silent_none (env : PredEnv) (fmt t1 t2 pk e o ofv : String)
    (t1p t2p : Option String) (i : Option String) (fpred : Option String) (st : SparkState)
    (h : fmt ∉ ["parquet", "orc", "csv", "hive"]) :
    valid_pk_only_in_one_table env fmt t1 t2 t1p t2p pk e i fpred o ofv st
      = (st, Except.ok none) := by
  simp only [List.mem_cons, List.mem_singleton, not_or] at h
  obtain ⟨hp, ho, hc, hh⟩ := h
  simp [valid_pk_only_in_one_table, hp, ho, hc, hh]

/-- C5 witness: the statement applied at the concrete format `json`. -/
theorem c5_unknown_format_silent_none_witness :
    (("json" : String) ∉ ["parquet", "orc", "csv", "hive"])
    ∧ valid_pk_only_in_one_table env5 "json" "a" "b" none none "id" "" none none "" "" st5
        = (st5, Except.ok none) :=
  ⟨by decide,
   c5_unknown_format_silent_none env5 "json" "a" "b" "id" "" "" "" none none none none st5
     (by decide)⟩

/-- C6: when one of the two named tables is missing from the catalog,
`valid_input` fails and `validation` prints the diagnostic naming the missing
table followed by `|--Please Check The Inputs --|`, returns normally
(`Except.ok`, no exception), and issues no query and no load. -/
theorem c6_missing_table_aborts_cleanly (env : PredEnv) (args : Args) (st : SparkState)
    (h : tableExists st args.t1 = false ∨ tableExists st args.t2 = false) :
    ∃ st2 : SparkState, validation env args st = (st2, Except.ok ())
      ∧ st2.queries = st.queries
      ∧ st2.loads = st.loads
      ∧ "|--Please Check The Inputs --|" ∈ st2.printed
      ∧ ∃ t, (t = args.t1 ∨ t = args.t2) ∧ tableExists st t = false
          ∧ ("|--Table " ++ t ++ " does not exist!--|") ∈ st2.printed := by
  by_cases h1 : tableExists st args.t1 = true
  · have h2 : tableExists st args.t2 = false := by
      rcases h with ha | hb
      · rw [h1] at ha; cases ha
      · exact hb
    have hval : validation env args st
        = ({ st with printed := (st.printed ++ ["|--Table " ++ args.t2 ++ " does not exist!--|"])
                                  ++ ["|--Please Check The Inputs --|"] }, Except.ok ()) := by
      simp [validation, valid_input, valid_table, h1, h2]
    exact ⟨_, hval, rfl, rfl, by simp, args.t2, Or.inr rfl, h2, by simp⟩
  · have h1f : tableExists st args.t1 = false := by
      cases hb : tableExists st args.t1
      · rfl
      · exact absurd hb h1
    have hval : validation env args st
        = ({ st with printed := (st.printed ++ ["|--Table " ++ args.t1 ++ " does not exist!--|"])
                                  ++ ["|--Please Check The Inputs --|"] }, Except.ok ()) := by
      simp [validation, valid_input, valid_table, h1f]
    exact ⟨_, hval, rfl, rfl, by simp, args.t1, Or.inl rfl, h1f, by simp⟩

/-- C6 witness: the statement applied to the concrete scenario in which
`--t1 missing` names a table absent from the catalog. -/
theorem c6_missing_table_aborts_cleanly_witness :
    (tableExists st6 args6.t1 = false ∨ tableExists st6 args6.t2 = false)
    ∧ ∃ st2 : SparkState, validation env6 args6 st6 = (st2, Except.ok ())
      ∧ st2.queries = st6.queries
      ∧ st2.loads = st6.loads
      ∧ "|--Please Check The Inputs --|" ∈ st2.printed
      ∧ ∃ t, (t = args6.t1 ∨ t = args6.t2) ∧ tableExists st6 t = false
          ∧ ("|--Table " ++ t ++ " does not exist!--|") ∈ st2.printed :=
  ⟨Or.inl (by decide),
   c6_missing_table_aborts_cleanly env6 args6 st6 (Or.inl (by decide))⟩

/-- C7: for every file-backed invocation, `load_table` hands `spark.sql`
exactly the SELECT `loadTableSql`, whose WHERE clause carries
`{t1p} and {f}` when both are present (not the sentinel `'None'`), exactly
the present one when only one is, and is absent when neither is; the
projected column list is `*` when no include list is given (Python `None`)
and the include list itself otherwise. -/
theorem c7_load_table_sql_shape (env : PredEnv) (fmt t1 pk e v1 : String)
    (i : Option String) (p q : String) (st : SparkState)
    (hf : fmt ∈ ["parquet", "orc", "csv"]) :
    ((load_table env fmt t1 (some p) pk e i (some q) v1 st).1.queries
        = st.queries ++ [loadTableSql pk i (some p) (some q) v1])
    ∧ (p ≠ "None" → q ≠ "None" →
        loadTableWhere (some p) (some q) = " where " ++ p ++ " and " ++ q)
    ∧ (p ≠ "None" → q = "None" →
        loadTableWhere (some p) (some q) = " where " ++ p)
    ∧ (p = "None" → q ≠ "None" →
        loadTableWhere (some p) (some q) = " where " ++ q)
    ∧ (p = "None" → q = "None" →
        loadTableWhere (some p) (some q) = "")
    ∧ loadTableCols none = "*"
    ∧ (∀ s, loadTableCols (some s) = s) := by
  refine ⟨?_, ?_, ?_, ?_, ?_, rfl, fun s => rfl⟩
  · by_cases hv : v1 = "" <;> simp [load_table, hf, hv]
  · intro hp hq; simp [loadTableWhere, pyNeNone, pyStr, hp, hq]
  · intro hp hq; simp [loadTableWhere, pyNeNone, pyStr, hp, hq]
  · intro hp hq; simp [loadTableWhere, pyNeNone, pyStr, hp, hq]
  · intro hp hq; simp [loadTableWhere, pyNeNone, pyStr, hp, hq]

/-- C7 witness: the statement applied at a concrete file-backed call with a
partition predicate present and the row filter at the sentinel. -/
theorem c7_load_table_sql_shape_witness :
    (("parquet" : String) ∈ ["parquet", "orc", "csv"])
    ∧ ((load_table env7 "parquet" "pathA" (some "part=1") "id" "" none (some "None") "v" st7).1.queries
        = st7.queries ++ [loadTableSql "id" none (some "part=1") (some "None") "v"])
    ∧ loadTableWhere (some "part=1") (some "None") = " where " ++ "part=1" :=
  ⟨by decide,
   (c7_load_table_sql_shape env7 "parquet" "pathA" "id" "" "v" none "part=1" "None" st7
      (by decide)).1,
   (c7_load_table_sql_shape env7 "parquet" "pathA" "id" "" "v" none "part=1" "None" st7
      (by decide)).2.2.1 (by decide) rfl⟩

/-- C10 counterexample: with an explicit `jvm_heap_size` of 30 and the
shorthand entry `j ↦ 10` present in `rapids_options`, the wrapper places 30
in `jvmMaxHeapSize` but — because `get_value_or_pop` only pops when the
explicit argument is Python `None` — the key `j` is still present in the
`rapids_options` passed on to `QualificationAsLocal`, refuting the claim
that every shorthand key is absent from the forwarded dictionary. -/
theorem c10_shorthand_key_survives :
    ((qualification none none none none none none none none none none none
        (some (PyVal.vInt 30)) none none none none
        [("j", PyVal.vInt 10)]).wrapperOptions.jobSubmissionProps.platformArgs.jvmMaxHeapSize
      = some (PyVal.vInt 30))
    ∧ lookupKey "j" ((qualification none none none none none none none none none none none
        (some (PyVal.vInt 30)) none none none none
        [("j", PyVal.vInt 10)]).rapidsOptions) = some (PyVal.vInt 10)
    ∧ lookupKey "j" ((qualification none none none none none none none none none none none
        (some (PyVal.vInt 30)) none none none none
        [("j", PyVal.vInt 10)]).rapidsOptions) ≠ none := by
  refine ⟨by decide, by decide, by decide⟩

/-- C10 (amended): the `jvmMaxHeapSize` placed in the wrapper options equals
the explicit `jvm_heap_size` argument when it is not `None`, otherwise the
value popped from `rapids_options` under the shorthand key `j` when present,
otherwise the default 24; and each shorthand key (`v`, `p`, `a`, `r`, `j`,
`e`, `f`, `t`, `l`) is absent from the `rapids_options` dictionary passed on
to `QualificationAsLocal` whenever its corresponding explicit argument is
`None` (when the explicit argument is provided, the shorthand entry is not
popped and survives). -/
theorem c10_amended_option_resolution
    (cpu ev pr aw lf rf gc tj cf fa gr jh vb cd gd gl : Option PyVal)
    (ro : List (String × PyVal)) :
    ((qualification cpu ev pr aw lf rf gc tj cf fa gr jh vb cd gd gl
        ro).wrapperOptions.jobSubmissionProps.platformArgs.jvmMaxHeapSize
      = some (match jh with
              | some v => v
              | none =>
                match lookupKey "j" ro with
                | some w => w
                | none => PyVal.vInt 24))
    ∧ (vb = none → lookupKey "v"
        (qualification cpu ev pr aw lf rf gc tj cf fa gr jh vb cd gd gl ro).rapidsOptions = none)
    ∧ (pr = none → lookupKey "p"
        (qualification cpu ev pr aw lf rf gc tj cf fa gr jh vb cd gd gl ro).rapidsOptions = none)
    ∧ (aw = none → lookupKey "a"
        (qualification cpu ev pr aw lf rf gc tj cf fa gr jh vb cd gd gl ro).rapidsOptions = none)
    ∧ (rf = none → lookupKey "r"
        (qualification cpu ev pr aw lf rf gc tj cf fa gr jh vb cd gd gl ro).rapidsOptions = none)
    ∧ (jh = none → lookupKey "j"
        (qualification cpu ev pr aw lf rf gc tj cf fa gr jh vb cd gd gl ro).rapidsOptions = none)
    ∧ (ev = none → lookupKey "e"
        (qualification cpu ev pr aw lf rf gc tj cf fa gr jh vb cd gd gl ro).rapidsOptions = none)
    ∧ (fa = none → lookupKey "f"
        (qualification cpu ev pr aw lf rf gc tj cf fa gr jh vb cd gd gl ro).rapidsOptions = none)
    ∧ (tj = none → lookupKey "t"
        (qualification cpu ev pr aw lf rf gc tj cf fa gr jh vb cd gd gl ro).rapidsOptions = none)
    ∧ (lf = none → lookupKey "l"
        (qualification cpu ev pr aw lf rf gc tj cf fa gr jh vb cd gd gl ro).rapidsOptions = none) := by
  refine ⟨?_, ?_, ?_, ?_, ?_, ?_, ?_, ?_, ?_, ?_⟩
  · cases jh with
    | some v => simp [qualification, get_value_or_pop]
    | none =>
      simp only [qualification]
      rw [gvop_fst_none]
      rw [gvop_snd_lookup_ne "j" "r" (by decide), gvop_snd_lookup_ne "j" "a" (by decide),
          gvop_snd_lookup_ne "j" "p" (by decide), gvop_snd_lookup_ne "j" "v" (by decide)]
      cases lookupKey "j" ro <;> rfl
  · intro hv
    simp only [qualification]
    rw [gvop_snd_lookup_ne "v" "l" (by decide), gvop_snd_lookup_ne "v" "t" (by decide),
        gvop_snd_lookup_ne "v" "f" (by decide), gvop_snd_lookup_ne "v" "e" (by decide),
        gvop_snd_lookup_ne "v" "j" (by decide), gvop_snd_lookup_ne "v" "r" (by decide),
        gvop_snd_lookup_ne "v" "a" (by decide), gvop_snd_lookup_ne "v" "p" (by decide), hv]
    exact gvop_snd_lookup_self ro "v" (some (PyVal.vBool false))
  · intro hp
    simp only [qualification]
    rw [gvop_snd_lookup_ne "p" "l" (by decide), gvop_snd_lookup_ne "p" "t" (by decide),
        gvop_snd_lookup_ne "p" "f" (by decide), gvop_snd_lookup_ne "p" "e" (by decide),
        gvop_snd_lookup_ne "p" "j" (by decide), gvop_snd_lookup_ne "p" "r" (by decide),
        gvop_snd_lookup_ne "p" "a" (by decide), hp]
    exact gvop_snd_lookup_self _ "p" none
  · intro ha
    simp only [qualification]
    rw [gvop_snd_lookup_ne "a" "l" (by decide), gvop_snd_lookup_ne "a" "t" (by decide),
        gvop_snd_lookup_ne "a" "f" (by decide), gvop_snd_lookup_ne "a" "e" (by decide),
        gvop_snd_lookup_ne "a" "j" (by decide), gvop_snd_lookup_ne "a" "r" (by decide), ha]
    exact gvop_snd_lookup_self _ "a" none
  · intro hr
    simp only [qualification]
    rw [gvop_snd_lookup_ne "r" "l" (by decide), gvop_snd_lookup_ne "r" "t" (by decide),
        gvop_snd_lookup_ne "r" "f" (by decide), gvop_snd_lookup_ne "r" "e" (by decide),
        gvop_snd_lookup_ne "r" "j" (by decide), hr]
    exact gvop_snd_lookup_self _ "r" none
  · intro hj
    simp only [qualification]
    rw [gvop_snd_lookup_ne "j" "l" (by decide), gvop_snd_lookup_ne "j" "t" (by decide),
        gvop_snd_lookup_ne "j" "f" (by decide), gvop_snd_lookup_ne "j" "e" (by decide), hj]
    exact gvop_snd_lookup_self _ "j" (some (PyVal.vInt 24))
  · intro he
    simp only [qualification]
    rw [gvop_snd_lookup_ne "e" "l" (by decide), gvop_snd_lookup_ne "e" "t" (by decide),
        gvop_snd_lookup_ne "e" "f" (by decide), he]
    exact gvop_snd_lookup_self _ "e" none
  · intro hfp
    simp only [qualification]
    rw [gvop_snd_lookup_ne "f" "l" (by decide), gvop_snd_lookup_ne "f" "t" (by decide), hfp]
    exact gvop_snd_lookup_self _ "f" none
  · intro ht
    simp only [qualification]
    rw [gvop_snd_lookup_ne "t" "l" (by decide), ht]
    exact gvop_snd_lookup_self _ "t" none
  · intro hl
    simp only [qualification]
    rw [hl]
    exact gvop_snd_lookup_self _ "l" none

/-- C10 witness: the amended statement applied with every explicit argument
`None` and `rapids_options` holding `j ↦ 7`: the heap size comes from the
popped entry, and the `j` key is absent from the forwarded dictionary. -/
theorem c10_amended_option_resolution_witness :
    ((qualification none none none none none none none none none none none none none none
        none none [("j", PyVal.vInt 7)]).wrapperOptions.jobSubmissionProps.platformArgs.jvmMaxHeapSize
      = some (PyVal.vInt 7))
    ∧ lookupKey "j" ((qualification none none none none none none none none none none none
        none none none none none [("j", PyVal.vInt 7)]).rapidsOptions) = none :=
  ⟨(c10_amended_option_resolution none none none none none none none none none none none
      none none none none none [("j", PyVal.vInt 7)]).1,
   (c10_amended_option_resolution none none none none none none none none none none none
      none none none none none [("j", PyVal.vInt 7)]).2.2.2.2.2.1 rfl⟩

end SparkRapidsTools
